import Mathlib

/-
Verification of the Hydro Suite time-of-concentration engine.

The definitions below are a shallow embedding of the Python sources:
  tc_calculator_tool.py      -> namespace TcTool
  dem_extraction.py          -> namespace DemX
  validation_calculations.py -> namespace Validation
Python floats are modelled as real numbers; the float power operator on
positive bases is modelled by Real.rpow.  Warning message strings are
modelled by the Warn tags below (one tag per distinct message site).
-/

open Real

/-- Warning tags, one per distinct warning message in the sources. -/
inductive Warn
  | adverseSlope
  | lowSlope
  | transitionalSlope
  | belowMinimumTc
  | emptyGeometry
  | couldNotExtract
  | zeroLength
  | cnBelowMin
  | cnAboveMax
  | lengthBelowMin
  | lengthAboveMax
  | slopeBelowMin
  | slopeAboveMax
  | retentionClamped
  | tcZero
  | demFailed
  | conservativeDefaults
  deriving DecidableEq, Repr

/-- ASCII lower casing, modelling the Python str.lower call on land type
tags (kept kernel reducible, unlike String.toLower). -/
def lowerStr (s : String) : String := ⟨s.data.map Char.toLower⟩

/-- ASCII upper casing, modelling the Python str.upper call on surface type
tags. -/
def upperStr (s : String) : String := ⟨s.data.map Char.toUpper⟩

namespace TcTool

/-- Module constant MIN_SLOPE_THRESHOLD of tc_calculator_tool.py. -/
def MIN_SLOPE_THRESHOLD : ℝ := 0.002

/-- Module constant TRANSITIONAL_SLOPE_UPPER of tc_calculator_tool.py. -/
def TRANSITIONAL_SLOPE_UPPER : ℝ := 0.003

/-- Module constant LOW_SLOPE_ADJUSTMENT of tc_calculator_tool.py. -/
def LOW_SLOPE_ADJUSTMENT : ℝ := 0.0005

/-- Module constant MIN_TC_PAVED. -/
def MIN_TC_PAVED : ℝ := 5.0

/-- Module constant MIN_TC_RURAL. -/
def MIN_TC_RURAL : ℝ := 10.0

/-- Module constant MIN_TC_DEFAULT. -/
def MIN_TC_DEFAULT : ℝ := 6.0

/-- Embedding of apply_slope_adjustment (tc_calculator_tool.py lines 109 to 137).
Returns (adjusted_slope, was_adjusted, warning_message). -/
noncomputable def apply_slope_adjustment (slope_ftft : ℝ) : ℝ × Bool × Option Warn :=
  if slope_ftft < 0 then
    (LOW_SLOPE_ADJUSTMENT, true, some .adverseSlope)
  else if slope_ftft < MIN_SLOPE_THRESHOLD then
    (slope_ftft + LOW_SLOPE_ADJUSTMENT, true, some .lowSlope)
  else if slope_ftft < TRANSITIONAL_SLOPE_UPPER then
    (slope_ftft, false, some .transitionalSlope)
  else
    (slope_ftft, false, none)

/-- Land types mapped to MIN_TC_PAVED in apply_tc_minimum. -/
def paved_types : List String := ["paved", "urban", "impervious", "commercial"]

/-- Land types mapped to MIN_TC_RURAL in apply_tc_minimum. -/
def rural_types : List String := ["rural", "undeveloped", "natural", "woods", "forest"]

/-- Minimum TC threshold selected by land type inside apply_tc_minimum. -/
def min_tc_for (land_type : String) : ℝ :=
  if paved_types.contains (lowerStr land_type) then MIN_TC_PAVED
  else if rural_types.contains (lowerStr land_type) then MIN_TC_RURAL
  else MIN_TC_DEFAULT

/-- Embedding of apply_tc_minimum (tc_calculator_tool.py lines 140 to 157);
the local variable min_tc of the Python body is the helper min_tc_for. -/
noncomputable def apply_tc_minimum (tc_minutes : ℝ) (land_type : String) :
    ℝ × Bool × Option Warn :=
  if tc_minutes < min_tc_for land_type then
    (min_tc_for land_type, true, some .belowMinimumTc)
  else (tc_minutes, false, none)

/-- Embedding of calc_hydraulic_radius (tc_calculator_tool.py lines 164 to 172).
Note that only depth and bottom_width are guarded; side_slope is not. -/
noncomputable def calc_hydraulic_radius (depth bottom_width side_slope : ℝ) : ℝ :=
  if depth ≤ 0 ∨ bottom_width ≤ 0 then 1.0
  else
    let top_width := bottom_width + 2 * side_slope * depth
    let area := (bottom_width + top_width) / 2 * depth
    let side_length := depth * Real.sqrt (1 + side_slope ^ 2)
    let wetted_perimeter := bottom_width + 2 * side_length
    if wetted_perimeter > 0 then area / wetted_perimeter else 1.0

/-- Embedding of calc_pipe_hydraulic_radius. -/
noncomputable def calc_pipe_hydraulic_radius (diameter : ℝ) : ℝ :=
  if diameter > 0 then diameter / 4.0 else 0.375

/-- Embedding of SegmentTravelTimeCalculator.sheet_flow_time
(tc_calculator_tool.py lines 187 to 197).  The length is clamped to 300 ft
first; there is no low slope adjustment inside this function. -/
noncomputable def sheet_flow_time (length_ft slope_pct mannings_n rainfall_intensity : ℝ) : ℝ :=
  let length_ft := min length_ft 300.0
  if length_ft ≤ 0 ∨ slope_pct ≤ 0 ∨ mannings_n ≤ 0 then 0.0
  else
    let slope_ftft := slope_pct / 100.0
    let tt_hours := (0.007 * ((mannings_n * length_ft) ^ (0.8 : ℝ))) /
      ((rainfall_intensity ^ (0.5 : ℝ)) * (slope_ftft ^ (0.4 : ℝ)))
    tt_hours * 60.0

/-- Embedding of SegmentTravelTimeCalculator.shallow_concentrated_time. -/
noncomputable def shallow_concentrated_time (length_ft slope_pct : ℝ)
    (surface_type : String) : ℝ :=
  if length_ft ≤ 0 ∨ slope_pct ≤ 0 then 0.0
  else
    let slope_ftft := slope_pct / 100.0
    let velocity_fps :=
      if (upperStr surface_type) = "PAVED" then 20.328 * (slope_ftft ^ (0.5 : ℝ))
      else 16.135 * (slope_ftft ^ (0.5 : ℝ))
    if velocity_fps ≤ 0 then 0.0
    else (length_ft / velocity_fps) / 60.0

/-- Embedding of SegmentTravelTimeCalculator.channel_flow_time. -/
noncomputable def channel_flow_time (length_ft slope_pct mannings_n hydraulic_radius : ℝ) : ℝ :=
  if length_ft ≤ 0 ∨ slope_pct ≤ 0 ∨ mannings_n ≤ 0 then 0.0
  else
    let slope_ftft := slope_pct / 100.0
    let velocity_fps := (1.49 / mannings_n) * (hydraulic_radius ^ ((2 : ℝ) / 3)) *
      (slope_ftft ^ (0.5 : ℝ))
    if velocity_fps ≤ 0 then 0.0
    else (length_ft / velocity_fps) / 60.0

/-- Embedding of SegmentTravelTimeCalculator.pipe_flow_time. -/
noncomputable def pipe_flow_time (length_ft slope_pct mannings_n diameter_ft : ℝ) : ℝ :=
  if length_ft ≤ 0 ∨ slope_pct ≤ 0 ∨ diameter_ft ≤ 0 then 0.0
  else
    let hydraulic_radius := diameter_ft / 4.0
    channel_flow_time length_ft slope_pct mannings_n hydraulic_radius

/-- Embedding of KirpichMethod.calculate (tc_calculator_tool.py lines 254 to 264). -/
noncomputable def Kirpich_calculate (length_ft slope_percent : ℝ) : ℝ :=
  if length_ft ≤ 0 ∨ slope_percent ≤ 0 then 0.0
  else
    let slope_ftft := slope_percent / 100.0
    0.0078 * (length_ft ^ (0.77 : ℝ)) / (slope_ftft ^ (0.385 : ℝ))

/-- Embedding of FAAMethod.calculate (tc_calculator_tool.py lines 267 to 277).
The keyword argument c_value with default 0.3 is modelled as an Option. -/
noncomputable def FAA_calculate (length_ft slope_percent : ℝ) (c_value : Option ℝ) : ℝ :=
  if length_ft ≤ 0 ∨ slope_percent ≤ 0 then 0.0
  else
    let c := c_value.getD 0.3
    (1.8 * (1.1 - c) * (length_ft ^ (0.5 : ℝ))) / (slope_percent ^ (0.33 : ℝ))

/-- Embedding of SCSLagMethod.calculate (tc_calculator_tool.py lines 302 to 316).
The keyword argument cn with default 75 is modelled as an Option.  Note the
silent replacement of cn by 75 when cn is nonpositive or above 100, and that
the slope enters the lag formula in percent, not ft per ft. -/
noncomputable def SCSLag_calculate (length_ft slope_percent : ℝ) (cn_arg : Option ℝ) : ℝ :=
  if length_ft ≤ 0 ∨ slope_percent ≤ 0 then 0.0
  else
    let cn0 := cn_arg.getD 75
    let cn := if cn0 ≤ 0 ∨ cn0 > 100 then 75 else cn0
    let storage_term0 := (1000.0 / cn) - 9.0
    let storage_term := if storage_term0 ≤ 0 then 0.1 else storage_term0
    let lag_hours := ((length_ft ^ (0.8 : ℝ)) * (storage_term ^ (0.7 : ℝ))) /
      (1900.0 * (slope_percent ^ (0.5 : ℝ)))
    (lag_hours / 0.6) * 60.0

/-- Embedding of KerbyMethod.calculate (tc_calculator_tool.py lines 319 to 330). -/
noncomputable def Kerby_calculate (length_ft slope_percent : ℝ) (n_arg : Option ℝ) : ℝ :=
  if length_ft ≤ 0 ∨ slope_percent ≤ 0 then 0.0
  else
    let n := n_arg.getD 0.4
    let slope_ftft := slope_percent / 100.0
    1.44 * ((n * length_ft) ^ (0.467 : ℝ)) / (slope_ftft ^ (0.235 : ℝ))

end TcTool

namespace Validation

/-- Embedding of calc_hydraulic_radius from validation_calculations.py
(lines 19 to 27); the body is identical to the tool version. -/
noncomputable def calc_hydraulic_radius (depth bottom_width side_slope : ℝ) : ℝ :=
  if depth ≤ 0 ∨ bottom_width ≤ 0 then 1.0
  else
    let top_width := bottom_width + 2 * side_slope * depth
    let area := (bottom_width + top_width) / 2 * depth
    let side_length := depth * Real.sqrt (1 + side_slope ^ 2)
    let wetted_perimeter := bottom_width + 2 * side_length
    if wetted_perimeter > 0 then area / wetted_perimeter else 1.0

/-- Embedding of sheet_flow_time from validation_calculations.py (lines 30 to 39);
identical to the tool version, with no internal low slope adjustment. -/
noncomputable def sheet_flow_time (length_ft slope_pct mannings_n p2_rainfall : ℝ) : ℝ :=
  let length_ft := min length_ft 300.0
  if length_ft ≤ 0 ∨ slope_pct ≤ 0 ∨ mannings_n ≤ 0 then 0.0
  else
    let slope_ftft := slope_pct / 100.0
    let tt_hours := (0.007 * ((mannings_n * length_ft) ^ (0.8 : ℝ))) /
      ((p2_rainfall ^ (0.5 : ℝ)) * (slope_ftft ^ (0.4 : ℝ)))
    tt_hours * 60.0

/-- Embedding of faa_tc from validation_calculations.py (lines 81 to 85). -/
noncomputable def faa_tc (length_ft slope_pct c_value : ℝ) : ℝ :=
  if length_ft ≤ 0 ∨ slope_pct ≤ 0 then 0.0
  else (1.8 * (1.1 - c_value) * (length_ft ^ (0.5 : ℝ))) / (slope_pct ^ (0.33 : ℝ))

/-- Embedding of scs_lag_tc from validation_calculations.py (lines 88 to 97).
Unlike SCSLagMethod.calculate in the tool, this converts the slope to ft per
ft before taking the 0.5 power, and applies no curve number clamp. -/
noncomputable def scs_lag_tc (length_ft slope_pct cn : ℝ) : ℝ :=
  if length_ft ≤ 0 ∨ slope_pct ≤ 0 then 0.0
  else
    let slope_ftft := slope_pct / 100.0
    let storage_term0 := (1000.0 / cn) - 9.0
    let storage_term := if storage_term0 ≤ 0 then 0.1 else storage_term0
    let lag_hours := ((length_ft ^ (0.8 : ℝ)) * (storage_term ^ (0.7 : ℝ))) /
      (1900.0 * (slope_ftft ^ (0.5 : ℝ)))
    (lag_hours / 0.6) * 60.0

end Validation

namespace DemX

/-- Module constant MIN_SLOPE_THRESHOLD of dem_extraction.py. -/
def MIN_SLOPE_THRESHOLD : ℝ := 0.002

/-- Module constant TRANSITIONAL_SLOPE_UPPER of dem_extraction.py. -/
def TRANSITIONAL_SLOPE_UPPER : ℝ := 0.003

/-- Module constant LOW_SLOPE_ADJUSTMENT of dem_extraction.py. -/
def LOW_SLOPE_ADJUSTMENT : ℝ := 0.0005

/-- Module constant MIN_TC_DEFAULT of dem_extraction.py. -/
def MIN_TC_DEFAULT : ℝ := 6.0

/-- Module constant MAX_SHEET_FLOW_LENGTH of dem_extraction.py. -/
def MAX_SHEET_FLOW_LENGTH : ℝ := 300.0

/-- Embedding of DEMFlowpathExtractor.apply_slope_adjustment
(dem_extraction.py lines 286 to 323); the logic is identical to
apply_slope_adjustment in tc_calculator_tool.py. -/
noncomputable def apply_slope_adjustment (slope_ftft : ℝ) : ℝ × Bool × Option Warn :=
  if slope_ftft < 0 then
    (LOW_SLOPE_ADJUSTMENT, true, some .adverseSlope)
  else if slope_ftft < MIN_SLOPE_THRESHOLD then
    (slope_ftft + LOW_SLOPE_ADJUSTMENT, true, some .lowSlope)
  else if slope_ftft < TRANSITIONAL_SLOPE_UPPER then
    (slope_ftft, false, some .transitionalSlope)
  else
    (slope_ftft, false, none)

/-- Minimum TC threshold selected by land type inside the dem_extraction copy
of apply_tc_minimum; the synonym lists are shorter than in the tool version. -/
noncomputable def min_tc_for (land_type : String) : ℝ :=
  if ["paved", "urban", "impervious"].contains (lowerStr land_type) then (5.0 : ℝ)
  else if ["rural", "undeveloped", "natural"].contains (lowerStr land_type) then 10.0
  else MIN_TC_DEFAULT

/-- Embedding of DEMFlowpathExtractor.apply_tc_minimum (dem_extraction.py lines
325 to 343). -/
noncomputable def apply_tc_minimum (tc_minutes : ℝ) (land_type : String) :
    ℝ × Bool × Option Warn :=
  if tc_minutes < min_tc_for land_type then
    (min_tc_for land_type, true, some .belowMinimumTc)
  else (tc_minutes, false, none)

/-- Embedding of TR55VelocityDEMCalculator.calculate_sheet_flow_time
(dem_extraction.py lines 500 to 526).  Unlike the segment calculator in
tc_calculator_tool.py, this one adds the low slope adjustment to the ft per ft
slope inside the calculator whenever it is below MIN_SLOPE_THRESHOLD. -/
noncomputable def calculate_sheet_flow_time (length_ft slope_pct mannings_n p2_rainfall : ℝ) :
    ℝ :=
  let length_ft := min length_ft MAX_SHEET_FLOW_LENGTH
  if length_ft ≤ 0 ∨ slope_pct ≤ 0 ∨ mannings_n ≤ 0 then 0.0
  else
    let slope_ftft := slope_pct / 100.0
    let slope_ftft := if slope_ftft < MIN_SLOPE_THRESHOLD
      then slope_ftft + LOW_SLOPE_ADJUSTMENT else slope_ftft
    let tt_hours := (0.007 * ((mannings_n * length_ft) ^ (0.8 : ℝ))) /
      ((p2_rainfall ^ (0.5 : ℝ)) * (slope_ftft ^ (0.4 : ℝ)))
    tt_hours * 60.0

/-- Result dictionary of SCSLagDEMCalculator.calculate, restricted to the
fields the claims are about. -/
structure SCSLagResult where
  lag_hr : ℝ
  tc_min : ℝ
  slope_pct : ℝ
  adjusted_slope : Bool
  adjusted_tc : Bool
  warnings : List Warn
  valid : Bool

/-- Embedding of SCSLagDEMCalculator.calculate (dem_extraction.py lines 379
to 475).  Note the clamps: a nonpositive curve number becomes MIN_CN and one
above 100 becomes MAX_CN, and the lag formula divides the percent slope by
100 before taking the 0.5 power, although the class docstring states that Y
is the slope in percent. -/
noncomputable def SCSLag_calculate (length_ft slope_pct cn : ℝ)
    (apply_adjustments : Bool) : SCSLagResult :=
  let MIN_CN : ℝ := 50
  let MAX_CN : ℝ := 95
  let MIN_SLOPE_PCT : ℝ := 0.5
  let MAX_SLOPE_PCT : ℝ := 64.0
  let MIN_LENGTH_FT : ℝ := 200
  let MAX_LENGTH_FT : ℝ := 26000
  let w1 : List Warn :=
    if cn < MIN_CN then [.cnBelowMin]
    else if cn > MAX_CN then [.cnAboveMax]
    else []
  let cn := if cn < MIN_CN ∧ cn ≤ 0 then MIN_CN
    else if cn ≥ MIN_CN ∧ cn > MAX_CN ∧ cn > 100 then MAX_CN
    else cn
  let w2 : List Warn :=
    if length_ft < MIN_LENGTH_FT then [.lengthBelowMin]
    else if length_ft > MAX_LENGTH_FT then [.lengthAboveMax]
    else []
  let slope_ftft := slope_pct / 100.0
  let adj := apply_slope_adjustment slope_ftft
  let slope_pct := if apply_adjustments ∧ adj.2.1 then adj.1 * 100.0 else slope_pct
  let adjusted_slope := apply_adjustments && adj.2.1
  let w3 : List Warn :=
    if apply_adjustments ∧ adj.2.1 then adj.2.2.toList else []
  let w4 : List Warn :=
    if slope_pct < MIN_SLOPE_PCT then [.slopeBelowMin]
    else if slope_pct > MAX_SLOPE_PCT then [.slopeAboveMax]
    else []
  let s_retention0 := if cn > 0 then (1000.0 / cn) - 9.0 else 1.0
  let s_retention := if s_retention0 ≤ 0 then 0.1 else s_retention0
  let w5 : List Warn := if s_retention0 ≤ 0 then [.retentionClamped] else []
  let lag_hr := if slope_pct > 0 ∧ length_ft > 0 then
      ((length_ft ^ (0.8 : ℝ)) * (s_retention ^ (0.7 : ℝ))) /
        (1900.0 * ((slope_pct / 100.0) ^ (0.5 : ℝ)))
    else 0.0
  let valid : Bool := decide (slope_pct > 0 ∧ length_ft > 0)
  let tc_min0 := if lag_hr > 0 then (lag_hr / 0.6) * 60.0 else MIN_TC_DEFAULT
  let w6 : List Warn := if lag_hr > 0 then [] else [.tcZero]
  let tcadj := apply_tc_minimum tc_min0 "rural"
  let adjusted_tc := apply_adjustments && tcadj.2.1
  let tc_min := if apply_adjustments ∧ tcadj.2.1 then tcadj.1 else tc_min0
  let w7 : List Warn := if apply_adjustments ∧ tcadj.2.1 then tcadj.2.2.toList else []
  { lag_hr := lag_hr
    tc_min := tc_min
    slope_pct := slope_pct
    adjusted_slope := adjusted_slope
    adjusted_tc := adjusted_tc
    warnings := w1 ++ w2 ++ w3 ++ w4 ++ w5 ++ w6 ++ w7
    valid := valid }

/-- Result dictionary of DEMFlowpathExtractor.extract_flowpath_simple,
restricted to the fields the claims are about. -/
structure ExtractResult where
  length_ft : ℝ
  slope_ftft : ℝ
  slope_pct : ℝ
  high_elev_ft : Option ℝ
  low_elev_ft : Option ℝ
  warnings : List Warn
  adjusted : Bool

/-- Fold modelling the lowest boundary point search of extract_flowpath_simple:
the running best is none until the first valid sample, and a later sample
replaces it only when strictly lower. -/
noncomputable def find_lowest {P : Type} (sample : P → Option ℝ) (pts : List P) :
    Option (ℝ × P) :=
  pts.foldl (fun acc pt =>
    match sample pt with
    | none => acc
    | some e =>
      match acc with
      | none => some (e, pt)
      | some (be, bp) => if e < be then some (e, pt) else some (be, bp)) none

/-- Fold modelling the highest grid point search of extract_flowpath_simple. -/
noncomputable def find_highest {P : Type} (sample : P → Option ℝ) (pts : List P) :
    Option (ℝ × P) :=
  pts.foldl (fun acc pt =>
    match sample pt with
    | none => acc
    | some e =>
      match acc with
      | none => some (e, pt)
      | some (be, bp) => if e > be then some (e, pt) else some (be, bp)) none

/-- Embedding of DEMFlowpathExtractor.extract_flowpath_simple
(dem_extraction.py lines 136 to 256), called with no explicit outlet point as
in calculate_dem_mode.  The GIS geometry operations are abstracted: sample is
the raster sampler (None on any failure, as in get_elevation_at_point),
boundary is the polyline of the subbasin boundary, grid_inside is the list of
the 11 by 11 bounding box grid points that lie inside the polygon, dist is
the planar distance, and is_meters tells whether the layer CRS is metric.
The infinity sentinels of the Python loops are modelled by Option folds. -/
noncomputable def extract_flowpath_simple {P : Type} (sample : P → Option ℝ)
    (boundary : List P) (grid_inside : List P) (centroid : P)
    (dist : P → P → ℝ) (is_meters : Bool) (is_empty_geom : Bool) : ExtractResult :=
  if is_empty_geom then
    { length_ft := 0, slope_ftft := 0, slope_pct := 0, high_elev_ft := none,
      low_elev_ft := none, warnings := [.emptyGeometry], adjusted := false }
  else
    let outlet_point := ((find_lowest sample boundary).map (·.2)).getD centroid
    let high := find_highest sample grid_inside
    let low_elev := sample outlet_point
    match high, low_elev with
    | none, _ =>
      { length_ft := 0, slope_ftft := 0, slope_pct := 0, high_elev_ft := none,
        low_elev_ft := none, warnings := [.couldNotExtract], adjusted := false }
    | some _, none =>
      { length_ft := 0, slope_ftft := 0, slope_pct := 0, high_elev_ft := none,
        low_elev_ft := none, warnings := [.couldNotExtract], adjusted := false }
    | some (he, hp), some le =>
      let conv : ℝ := if is_meters then 3.28084 else 1
      let length := dist hp outlet_point * conv
      let he := he * conv
      let le := le * conv
      let slope0 := if length > 0 then (he - le) / length else 0
      let wzero : List Warn := if length > 0 then [] else [.zeroLength]
      let adj := apply_slope_adjustment slope0
      { length_ft := length, slope_ftft := adj.1, slope_pct := adj.1 * 100.0,
        high_elev_ft := some he, low_elev_ft := some le,
        warnings := wzero ++ adj.2.2.toList, adjusted := adj.2.1 }

/-- Per catchment record assembled by TCCalculatorToolEnhanced.calculate_dem_mode,
restricted to the fields the claims are about. -/
structure DemRecord where
  total_length_ft : ℝ
  avg_slope_pct : ℝ
  warnings : List Warn
  adjusted : Bool

/-- Embedding of the per catchment body of calculate_dem_mode
(tc_calculator_tool.py lines 2043 to 2106) on the path where
extract_flowpath_simple returns normally: take its length, slope and
warnings, then re-apply the slope adjustment when the option is enabled. -/
noncomputable def dem_mode_record (extraction : ExtractResult)
    (apply_slope_adjustments : Bool) : DemRecord :=
  let length_ft := extraction.length_ft
  let slope_pct := extraction.slope_pct
  let was_adjusted := extraction.adjusted
  if apply_slope_adjustments then
    let adj := apply_slope_adjustment (slope_pct / 100.0)
    if adj.2.1 then
      { total_length_ft := length_ft, avg_slope_pct := adj.1 * 100.0,
        warnings := extraction.warnings ++ adj.2.2.toList, adjusted := true }
    else
      { total_length_ft := length_ft, avg_slope_pct := slope_pct,
        warnings := extraction.warnings, adjusted := was_adjusted }
  else
    { total_length_ft := length_ft, avg_slope_pct := slope_pct,
      warnings := extraction.warnings, adjusted := was_adjusted }

/-- The normal (no exception) per catchment path of calculate_dem_mode:
extraction followed by record assembly. -/
noncomputable def dem_mode_catchment {P : Type} (sample : P → Option ℝ)
    (boundary : List P) (grid_inside : List P) (centroid : P)
    (dist : P → P → ℝ) (is_meters : Bool) (is_empty_geom : Bool)
    (apply_slope_adjustments : Bool) : DemRecord :=
  dem_mode_record
    (extract_flowpath_simple sample boundary grid_inside centroid dist
      is_meters is_empty_geom)
    apply_slope_adjustments

/-- Embedding of the except branch of the per catchment body of
calculate_dem_mode (tc_calculator_tool.py lines 2053 to 2075): this is the
only place where the bounding box diagonal length and the conservative 0.2
percent slope are produced, and it runs only when extract_flowpath_simple
raises an exception. -/
noncomputable def dem_mode_exception_record (bbox_w bbox_h : ℝ)
    (is_meters : Bool) (geom_nonempty : Bool)
    (apply_slope_adjustments : Bool) : DemRecord :=
  let base : ExtractResult :=
    if geom_nonempty then
      let conv : ℝ := if is_meters then 3.28084 else 1
      { length_ft := Real.sqrt (bbox_w ^ 2 + bbox_h ^ 2) * conv,
        slope_ftft := 0.002, slope_pct := 0.2, high_elev_ft := none,
        low_elev_ft := none,
        warnings := [.demFailed, .conservativeDefaults], adjusted := true }
    else
      { length_ft := 2100, slope_ftft := 0.002, slope_pct := 0.2,
        high_elev_ft := none, low_elev_ft := none,
        warnings := [.demFailed, .conservativeDefaults], adjusted := true }
  dem_mode_record base apply_slope_adjustments

end DemX

/-- C5: for every ft per ft slope s, apply_slope_adjustment returns 0.0005
with an adverse slope warning when s is negative, s + 0.0005 with a low slope
warning when 0 <= s < 0.002, s unchanged with a transitional warning when
0.002 <= s < 0.003, and s unchanged with no warning when s >= 0.003; the
adjusted slope is always strictly positive, and the dem_extraction copy of
the function agrees with the tool copy. -/
theorem C5_adjust_slope_spec (s : ℝ) :
    (s < 0 → TcTool.apply_slope_adjustment s = (0.0005, true, some Warn.adverseSlope)) ∧
    (0 ≤ s → s < 0.002 →
      TcTool.apply_slope_adjustment s = (s + 0.0005, true, some Warn.lowSlope)) ∧
    (0.002 ≤ s → s < 0.003 →
      TcTool.apply_slope_adjustment s = (s, false, some Warn.transitionalSlope)) ∧
    (0.003 ≤ s → TcTool.apply_slope_adjustment s = (s, false, none)) ∧
    0 < (TcTool.apply_slope_adjustment s).1 ∧
    DemX.apply_slope_adjustment s = TcTool.apply_slope_adjustment s := by
  unfold TcTool.apply_slope_adjustment DemX.apply_slope_adjustment
    TcTool.MIN_SLOPE_THRESHOLD TcTool.TRANSITIONAL_SLOPE_UPPER
    TcTool.LOW_SLOPE_ADJUSTMENT DemX.MIN_SLOPE_THRESHOLD
    DemX.TRANSITIONAL_SLOPE_UPPER DemX.LOW_SLOPE_ADJUSTMENT
  refine ⟨?_, ?_, ?_, ?_, ?_, ?_⟩ <;>
    split_ifs <;> intros <;> simp_all <;> linarith

/-- Witness for C5 at the concrete slopes -0.01 and 0.001. -/
theorem C5_witness :
    TcTool.apply_slope_adjustment (-0.01) = (0.0005, true, some Warn.adverseSlope) ∧
    TcTool.apply_slope_adjustment 0.001 = (0.001 + 0.0005, true, some Warn.lowSlope) := by
  exact ⟨(C5_adjust_slope_spec (-0.01)).1 (by norm_num),
    (C5_adjust_slope_spec 0.001).2.1 (by norm_num) (by norm_num)⟩

/-- C9: sheet flow lengths above 300 ft are truncated to 300 ft, so any
segment at least 300 ft long produces the same sheet flow travel time as a
300 ft segment with identical other parameters, in both the tool and the
validation script implementations. -/
theorem C9_sheet_clamp (L S n P2 : ℝ) (h : 300 ≤ L) :
    TcTool.sheet_flow_time L S n P2 = TcTool.sheet_flow_time 300 S n P2 ∧
    Validation.sheet_flow_time L S n P2 = Validation.sheet_flow_time 300 S n P2 := by
  have hL : min L (300.0 : ℝ) = 300.0 := min_eq_right (by norm_num at h ⊢; linarith)
  have h3 : min (300 : ℝ) (300.0 : ℝ) = 300.0 := by norm_num
  unfold TcTool.sheet_flow_time Validation.sheet_flow_time
  rw [hL, h3]
  exact ⟨rfl, rfl⟩

/-- Witness for C9 at the instance named in the claim: a 500 ft sheet flow
segment at 2 percent slope, n 0.24, P2 3.5 in. -/
theorem C9_witness :
    TcTool.sheet_flow_time 500 2 0.24 3.5 = TcTool.sheet_flow_time 300 2 0.24 3.5 ∧
    Validation.sheet_flow_time 500 2 0.24 3.5 = Validation.sheet_flow_time 300 2 0.24 3.5 :=
  C9_sheet_clamp 500 2 0.24 3.5 (by norm_num)

/-- C7: every segment travel time calculator returns exactly 0.0 when the
length, the slope, a required roughness or the pipe diameter is nonpositive,
and every whole catchment method (Kirpich, FAA, SCS Lag, Kerby) returns
exactly 0.0 when the length or the slope is nonpositive; degenerate input is
a sentinel result, not an error. -/
theorem C7_degenerate_zero (L S n P2 R d c cn kn : ℝ) (surf : String) :
    (L ≤ 0 ∨ S ≤ 0 ∨ n ≤ 0 → TcTool.sheet_flow_time L S n P2 = 0) ∧
    (L ≤ 0 ∨ S ≤ 0 → TcTool.shallow_concentrated_time L S surf = 0) ∧
    (L ≤ 0 ∨ S ≤ 0 ∨ n ≤ 0 → TcTool.channel_flow_time L S n R = 0) ∧
    (L ≤ 0 ∨ S ≤ 0 ∨ n ≤ 0 ∨ d ≤ 0 → TcTool.pipe_flow_time L S n d = 0) ∧
    (L ≤ 0 ∨ S ≤ 0 →
      TcTool.Kirpich_calculate L S = 0 ∧
      TcTool.FAA_calculate L S (some c) = 0 ∧
      TcTool.SCSLag_calculate L S (some cn) = 0 ∧
      TcTool.Kerby_calculate L S (some kn) = 0) := by
  have hmin : L ≤ 0 → min L (300.0 : ℝ) ≤ 0 := fun h => le_trans (min_le_left _ _) h
  refine ⟨?_, ?_, ?_, ?_, ?_⟩
  · intro h
    unfold TcTool.sheet_flow_time
    rcases h with h | h | h
    · rw [if_pos (Or.inl (hmin h))]; norm_num
    · rw [if_pos (Or.inr (Or.inl h))]; norm_num
    · rw [if_pos (Or.inr (Or.inr h))]; norm_num
  · intro h
    unfold TcTool.shallow_concentrated_time
    rw [if_pos h]; norm_num
  · intro h
    unfold TcTool.channel_flow_time
    rw [if_pos h]; norm_num
  · intro h
    unfold TcTool.pipe_flow_time
    rcases h with h | h | h | h
    · rw [if_pos (Or.inl h)]; norm_num
    · rw [if_pos (Or.inr (Or.inl h))]; norm_num
    · by_cases hd : L ≤ 0 ∨ S ≤ 0 ∨ d ≤ 0
      · rw [if_pos hd]; norm_num
      · rw [if_neg hd]
        unfold TcTool.channel_flow_time
        rw [if_pos (Or.inr (Or.inr h))]; norm_num
    · rw [if_pos (Or.inr (Or.inr h))]; norm_num
  · intro h
    unfold TcTool.Kirpich_calculate TcTool.FAA_calculate TcTool.SCSLag_calculate
      TcTool.Kerby_calculate
    rw [if_pos h, if_pos h, if_pos h, if_pos h]
    norm_num

/-- Witness for C7 at concrete degenerate inputs. -/
theorem C7_witness :
    TcTool.sheet_flow_time 100 2 (-0.1) 3.5 = 0 ∧
    TcTool.shallow_concentrated_time 0 2 "UNPAVED" = 0 ∧
    TcTool.channel_flow_time 1200 (-1.5) 0.035 1 = 0 ∧
    TcTool.pipe_flow_time 400 0.8 0.013 0 = 0 ∧
    (TcTool.Kirpich_calculate 0 2 = 0 ∧
      TcTool.FAA_calculate 0 2 (some 0.42) = 0 ∧
      TcTool.SCSLag_calculate 0 2 (some 75) = 0 ∧
      TcTool.Kerby_calculate 0 2 (some 0.4) = 0) := by
  refine ⟨?_, ?_, ?_, ?_, ?_⟩
  · exact (C7_degenerate_zero 100 2 (-0.1) 3.5 1 1 0.42 75 0.4 "UNPAVED").1
      (by norm_num)
  · exact (C7_degenerate_zero 0 2 (-0.1) 3.5 1 1 0.42 75 0.4 "UNPAVED").2.1
      (by norm_num)
  · exact (C7_degenerate_zero 1200 (-1.5) 0.035 3.5 1 1 0.42 75 0.4 "UNPAVED").2.2.1
      (by norm_num)
  · exact (C7_degenerate_zero 400 0.8 0.013 3.5 1 0 0.42 75 0.4 "UNPAVED").2.2.2.1
      (by norm_num)
  · exact (C7_degenerate_zero 0 2 0.035 3.5 1 1 0.42 75 0.4 "UNPAVED").2.2.2.2
      (by norm_num)

/-- C6: apply_tc_minimum selects the floor 5 minutes for paved land, 10 for
rural or undeveloped land and 6 otherwise; below the floor it returns the
floor with a warning, otherwise the input unchanged; it never decreases its
input, never returns below the applicable floor, and is idempotent. -/
theorem C6_tc_minimum_spec (tc : ℝ) (lt : String) :
    TcTool.min_tc_for "paved" = 5 ∧
    TcTool.min_tc_for "rural" = 10 ∧
    TcTool.min_tc_for "undeveloped" = 10 ∧
    (TcTool.paved_types.contains (lowerStr lt) = false →
      TcTool.rural_types.contains (lowerStr lt) = false →
      TcTool.min_tc_for lt = 6) ∧
    (tc < TcTool.min_tc_for lt →
      TcTool.apply_tc_minimum tc lt =
        (TcTool.min_tc_for lt, true, some Warn.belowMinimumTc)) ∧
    (TcTool.min_tc_for lt ≤ tc → TcTool.apply_tc_minimum tc lt = (tc, false, none)) ∧
    tc ≤ (TcTool.apply_tc_minimum tc lt).1 ∧
    TcTool.min_tc_for lt ≤ (TcTool.apply_tc_minimum tc lt).1 ∧
    (TcTool.apply_tc_minimum (TcTool.apply_tc_minimum tc lt).1 lt).1 =
      (TcTool.apply_tc_minimum tc lt).1 := by
  have hp : TcTool.paved_types.contains (lowerStr "paved") = true := by decide
  have hr : TcTool.rural_types.contains (lowerStr "rural") = true := by decide
  have hrp : TcTool.paved_types.contains (lowerStr "rural") = false := by decide
  have hu : TcTool.rural_types.contains (lowerStr "undeveloped") = true := by decide
  have hup : TcTool.paved_types.contains (lowerStr "undeveloped") = false := by decide
  refine ⟨?_, ?_, ?_, ?_, ?_, ?_, ?_, ?_, ?_⟩
  · unfold TcTool.min_tc_for
    rw [hp, if_pos rfl]
    norm_num [TcTool.MIN_TC_PAVED]
  · unfold TcTool.min_tc_for
    rw [hrp, hr, if_neg (by simp), if_pos rfl]
    norm_num [TcTool.MIN_TC_RURAL]
  · unfold TcTool.min_tc_for
    rw [hup, hu, if_neg (by simp), if_pos rfl]
    norm_num [TcTool.MIN_TC_RURAL]
  · intro h1 h2
    unfold TcTool.min_tc_for
    rw [h1, h2, if_neg (by simp), if_neg (by simp)]
    norm_num [TcTool.MIN_TC_DEFAULT]
  · intro h
    unfold TcTool.apply_tc_minimum
    rw [if_pos h]
  · intro h
    unfold TcTool.apply_tc_minimum
    rw [if_neg (not_lt.mpr h)]
  · unfold TcTool.apply_tc_minimum
    split_ifs with h
    · exact le_of_lt h
    · exact le_refl tc
  · unfold TcTool.apply_tc_minimum
    split_ifs with h
    · exact le_refl _
    · exact not_lt.mp h
  · unfold TcTool.apply_tc_minimum
    split_ifs with h h1 h2 <;> simp_all <;> linarith

/-- Witness for C6 at the concrete inputs 3 minutes on paved land and the
unlisted land type suburban. -/
theorem C6_witness :
    TcTool.apply_tc_minimum 3 "paved" =
      (TcTool.min_tc_for "paved", true, some Warn.belowMinimumTc) ∧
    TcTool.min_tc_for "suburban" = 6 := by
  constructor
  · exact (C6_tc_minimum_spec 3 "paved").2.2.2.2.1
      (by rw [(C6_tc_minimum_spec 3 "paved").1]; norm_num)
  · exact (C6_tc_minimum_spec 3 "suburban").2.2.2.1 (by decide) (by decide)

/-- C10 counterexample: the claim says the trapezoidal hydraulic radius
function returns 1.0 whenever any input is nonpositive, but at depth 1,
bottom width 1 and side slope 0 (a nonpositive input) the code evaluates the
formula and returns one third. -/
theorem C10_counterexample :
    TcTool.calc_hydraulic_radius 1 1 0 = 1 / 3 ∧ ((1 : ℝ) / 3) ≠ 1.0 := by
  constructor
  · unfold TcTool.calc_hydraulic_radius
    rw [if_neg (by norm_num)]
    have hs : Real.sqrt (1 + (0 : ℝ) ^ 2) = 1 := by
      norm_num
    rw [hs]
    norm_num
  · norm_num

/-- C10 amended: calc_hydraulic_radius is total and returns 1.0 when depth or
bottom width is nonpositive (the side slope is not guarded); for positive
depth and bottom width it returns area over wetted perimeter, which is
strictly positive when all inputs are positive; the validation script copy
agrees with the tool copy. -/
theorem C10_amended (depth bw ss : ℝ) :
    (depth ≤ 0 ∨ bw ≤ 0 → TcTool.calc_hydraulic_radius depth bw ss = 1.0) ∧
    (0 < depth → 0 < bw →
      TcTool.calc_hydraulic_radius depth bw ss =
        ((bw + (bw + 2 * ss * depth)) / 2 * depth) /
          (bw + 2 * (depth * Real.sqrt (1 + ss ^ 2)))) ∧
    (0 < depth → 0 < bw → 0 < ss → 0 < TcTool.calc_hydraulic_radius depth bw ss) ∧
    Validation.calc_hydraulic_radius depth bw ss =
      TcTool.calc_hydraulic_radius depth bw ss := by
  have hwp : 0 < depth → 0 < bw → 0 < bw + 2 * (depth * Real.sqrt (1 + ss ^ 2)) := by
    intro hd hb
    have h1 : 0 ≤ Real.sqrt (1 + ss ^ 2) := Real.sqrt_nonneg _
    nlinarith
  refine ⟨?_, ?_, ?_, ?_⟩
  · intro h
    unfold TcTool.calc_hydraulic_radius
    rw [if_pos h]
  · intro hd hb
    unfold TcTool.calc_hydraulic_radius
    rw [if_neg (by push_neg; exact ⟨hd, hb⟩), if_pos (hwp hd hb)]
  · intro hd hb hs
    unfold TcTool.calc_hydraulic_radius
    rw [if_neg (by push_neg; exact ⟨hd, hb⟩), if_pos (hwp hd hb)]
    have h1 : 0 ≤ Real.sqrt (1 + ss ^ 2) := Real.sqrt_nonneg _
    have hnum : 0 < (bw + (bw + 2 * ss * depth)) / 2 * depth := by
      have h2 : 0 < bw + (bw + 2 * ss * depth) := by nlinarith [mul_pos hs hd]
      exact mul_pos (div_pos h2 two_pos) hd
    exact div_pos hnum (hwp hd hb)
  · rfl

/-- Witness for C10 amended at depth 2, bottom width 4, side slope 3. -/
theorem C10_witness : 0 < TcTool.calc_hydraulic_radius 2 4 3 :=
  (C10_amended 2 4 3).2.2.1 (by norm_num) (by norm_num) (by norm_num)

/-- C8: for positive length and percent slope, the FAA method returns
1.8 (1.1 - C) L to the 0.5 over S to the 0.33 with the slope kept in percent;
the default runoff coefficient is 0.3, the validation script copy agrees with
the tool copy, and the result differs from the value the formula would give
had the slope been converted to ft per ft. -/
theorem C8_faa_formula (L S c : ℝ) (hL : 0 < L) (hS : 0 < S) :
    TcTool.FAA_calculate L S (some c) =
      (1.8 * (1.1 - c) * (L ^ (0.5 : ℝ))) / (S ^ (0.33 : ℝ)) ∧
    TcTool.FAA_calculate L S none =
      (1.8 * (1.1 - 0.3) * (L ^ (0.5 : ℝ))) / (S ^ (0.33 : ℝ)) ∧
    Validation.faa_tc L S c = TcTool.FAA_calculate L S (some c) ∧
    (c < 1.1 →
      TcTool.FAA_calculate L S (some c) ≠
        (1.8 * (1.1 - c) * (L ^ (0.5 : ℝ))) / ((S / 100) ^ (0.33 : ℝ))) := by
  have hguard : ¬(L ≤ 0 ∨ S ≤ 0) := by push_neg; exact ⟨hL, hS⟩
  refine ⟨?_, ?_, ?_, ?_⟩
  · unfold TcTool.FAA_calculate
    rw [if_neg hguard]
    rfl
  · unfold TcTool.FAA_calculate
    rw [if_neg hguard]
    rfl
  · unfold Validation.faa_tc TcTool.FAA_calculate
    rw [if_neg hguard, if_neg hguard]
    rfl
  · intro hc
    unfold TcTool.FAA_calculate
    rw [if_neg hguard]
    have hnum : 0 < 1.8 * (1.1 - c) * (L ^ (0.5 : ℝ)) := by
      have := Real.rpow_pos_of_pos hL (0.5 : ℝ)
      nlinarith
    have hlt : (S / 100) ^ (0.33 : ℝ) < S ^ (0.33 : ℝ) :=
      Real.rpow_lt_rpow (by positivity) (by linarith) (by norm_num)
    have hd : 0 < (S / 100) ^ (0.33 : ℝ) := Real.rpow_pos_of_pos (by positivity) _
    have := div_lt_div_of_pos_left hnum hd hlt
    exact ne_of_lt this

/-- Witness for C8 at length 2100 ft, slope 2 percent, C 0.42. -/
theorem C8_witness :
    TcTool.FAA_calculate 2100 2 (some 0.42) =
      (1.8 * (1.1 - 0.42) * ((2100 : ℝ) ^ (0.5 : ℝ))) / ((2 : ℝ) ^ (0.33 : ℝ)) ∧
    Validation.faa_tc 2100 2 0.42 = TcTool.FAA_calculate 2100 2 (some 0.42) := by
  have h := C8_faa_formula 2100 2 0.42 (by norm_num) (by norm_num)
  exact ⟨h.1, h.2.2.1⟩

/-- C1 counterexample: the claim says the sheet flow calculator named
sheet_flow_time adds 0.0005 to the ft per ft slope inside itself whenever the
slope is below 0.002, but at a 100 ft segment with 0.1 percent slope (0.001
ft per ft), n 0.24 and P2 3.5 in, SegmentTravelTimeCalculator.sheet_flow_time
returns the formula at 0.001, which is strictly greater than the claimed
value of the formula at 0.0015. -/
theorem C1_counterexample :
    TcTool.sheet_flow_time 100 0.1 0.24 3.5 ≠
      0.007 * ((0.24 * 100) ^ (0.8 : ℝ)) /
        (3.5 ^ (0.5 : ℝ) * ((0.1 / 100.0 + 0.0005) ^ (0.4 : ℝ))) * 60.0 := by
  have hmin : min (100 : ℝ) 300.0 = 100 := by norm_num
  unfold TcTool.sheet_flow_time
  rw [hmin, if_neg (by norm_num)]
  have hN : 0 < 0.007 * (((0.24 : ℝ) * 100) ^ (0.8 : ℝ)) := by
    have := Real.rpow_pos_of_pos (show (0 : ℝ) < 0.24 * 100 by norm_num) (0.8 : ℝ)
    nlinarith
  have hP : 0 < (3.5 : ℝ) ^ (0.5 : ℝ) := Real.rpow_pos_of_pos (by norm_num) _
  have ha : 0 < ((0.1 : ℝ) / 100.0) ^ (0.4 : ℝ) := Real.rpow_pos_of_pos (by norm_num) _
  have hab : ((0.1 : ℝ) / 100.0) ^ (0.4 : ℝ) <
      ((0.1 / 100.0 + 0.0005) : ℝ) ^ (0.4 : ℝ) :=
    Real.rpow_lt_rpow (by norm_num) (by norm_num) (by norm_num)
  have hda : 0 < (3.5 : ℝ) ^ (0.5 : ℝ) * (((0.1 : ℝ) / 100.0) ^ (0.4 : ℝ)) :=
    mul_pos hP ha
  have hdd : (3.5 : ℝ) ^ (0.5 : ℝ) * (((0.1 : ℝ) / 100.0) ^ (0.4 : ℝ)) <
      (3.5 : ℝ) ^ (0.5 : ℝ) * (((0.1 / 100.0 + 0.0005) : ℝ) ^ (0.4 : ℝ)) :=
    (mul_lt_mul_left hP).mpr hab
  have hlt := div_lt_div_of_pos_left hN hda hdd
  have hfin := mul_lt_mul_of_pos_right hlt (show (0 : ℝ) < 60.0 by norm_num)
  exact ne_of_gt hfin

/-- C1 amended: only the DEM mode sheet flow calculator applies the low slope
adjustment inside itself; for length in (0, 300], percent slope whose ft per
ft value is positive and below 0.002, positive n and positive P2,
TR55VelocityDEMCalculator.calculate_sheet_flow_time evaluates the TR-55
formula at the adjusted slope S + 0.0005, while
SegmentTravelTimeCalculator.sheet_flow_time and the validation script copy
evaluate it at the unadjusted slope. -/
theorem C1_amended (L S n P2 : ℝ) (hL : 0 < L) (hL3 : L ≤ 300)
    (hS : 0 < S) (hlow : S / 100 < 0.002) (hn : 0 < n) (hP2 : 0 < P2) :
    DemX.calculate_sheet_flow_time L S n P2 =
      (0.007 * ((n * L) ^ (0.8 : ℝ))) /
        ((P2 ^ (0.5 : ℝ)) * ((S / 100 + 0.0005) ^ (0.4 : ℝ))) * 60 ∧
    TcTool.sheet_flow_time L S n P2 =
      (0.007 * ((n * L) ^ (0.8 : ℝ))) /
        ((P2 ^ (0.5 : ℝ)) * ((S / 100) ^ (0.4 : ℝ))) * 60 ∧
    Validation.sheet_flow_time L S n P2 = TcTool.sheet_flow_time L S n P2 := by
  have hmin : min L (300.0 : ℝ) = L := min_eq_left (by norm_num; linarith)
  have hmin2 : min L DemX.MAX_SHEET_FLOW_LENGTH = L := by
    unfold DemX.MAX_SHEET_FLOW_LENGTH
    exact hmin
  have hguard : ¬(L ≤ 0 ∨ S ≤ 0 ∨ n ≤ 0) := by push_neg; exact ⟨hL, hS, hn⟩
  have hcond : S / 100.0 < DemX.MIN_SLOPE_THRESHOLD := by
    unfold DemX.MIN_SLOPE_THRESHOLD
    norm_num
    linarith
  refine ⟨?_, ?_, ?_⟩
  · unfold DemX.calculate_sheet_flow_time
    rw [hmin2, if_neg hguard]
    dsimp only
    rw [if_pos hcond]
    unfold DemX.LOW_SLOPE_ADJUSTMENT
    norm_num
  · unfold TcTool.sheet_flow_time
    rw [hmin, if_neg hguard]
    norm_num
  · unfold Validation.sheet_flow_time TcTool.sheet_flow_time
    rw [hmin]

/-- Witness for C1 amended at a 100 ft segment, 0.1 percent slope, n 0.24,
P2 3.5 in. -/
theorem C1_witness :
    DemX.calculate_sheet_flow_time 100 0.1 0.24 3.5 =
      (0.007 * ((0.24 * 100) ^ (0.8 : ℝ))) /
        ((3.5 ^ (0.5 : ℝ)) * ((0.1 / 100 + 0.0005) ^ (0.4 : ℝ))) * 60 ∧
    Validation.sheet_flow_time 100 0.1 0.24 3.5 = TcTool.sheet_flow_time 100 0.1 0.24 3.5 := by
  have h := C1_amended 100 0.1 0.24 3.5 (by norm_num) (by norm_num) (by norm_num)
    (by norm_num) (by norm_num) (by norm_num)
  exact ⟨h.1, h.2.2⟩

/-- C3 counterexample: the claim says an out of range curve number is passed
unmodified to the SCS Lag formula with only a warning, but at length 1000 ft,
slope 4 percent and CN 110 the comparison method object silently replaces the
curve number by 75 before evaluating, so its result is not the formula value
at CN 110. -/
theorem C3_counterexample :
    TcTool.SCSLag_calculate 1000 4 (some 110) ≠
      ((1000 : ℝ) ^ (0.8 : ℝ)) * (((1000 / 110 - 9) : ℝ) ^ (0.7 : ℝ)) /
        (1900.0 * ((4 : ℝ) ^ (0.5 : ℝ))) / 0.6 * 60.0 := by
  unfold TcTool.SCSLag_calculate
  rw [if_neg (by norm_num)]
  dsimp only [Option.getD]
  rw [if_pos (by norm_num : (110 : ℝ) ≤ 0 ∨ (110 : ℝ) > 100)]
  rw [if_neg (by norm_num : ¬((1000.0 : ℝ) / 75 - 9.0 ≤ 0))]
  have h75 : (1000.0 : ℝ) / 75 - 9.0 = 13 / 3 := by norm_num
  have h110 : (1000 : ℝ) / 110 - 9 = 1 / 11 := by norm_num
  rw [h75, h110]
  have hL : 0 < (1000 : ℝ) ^ (0.8 : ℝ) := Real.rpow_pos_of_pos (by norm_num) _
  have hS : 0 < (4 : ℝ) ^ (0.5 : ℝ) := Real.rpow_pos_of_pos (by norm_num) _
  have hst : ((1 : ℝ) / 11) ^ (0.7 : ℝ) < ((13 : ℝ) / 3) ^ (0.7 : ℝ) :=
    Real.rpow_lt_rpow (by norm_num) (by norm_num) (by norm_num)
  have hnum : (1000 : ℝ) ^ (0.8 : ℝ) * (((1 : ℝ) / 11) ^ (0.7 : ℝ)) <
      (1000 : ℝ) ^ (0.8 : ℝ) * (((13 : ℝ) / 3) ^ (0.7 : ℝ)) :=
    (mul_lt_mul_left hL).mpr hst
  have hden : 0 < 1900.0 * ((4 : ℝ) ^ (0.5 : ℝ)) := by
    have : (0 : ℝ) < 1900.0 := by norm_num
    exact mul_pos this hS
  have h1 := (div_lt_div_right hden).mpr hnum
  have h2 := (div_lt_div_right (show (0 : ℝ) < 0.6 by norm_num)).mpr h1
  have h3 := mul_lt_mul_of_pos_right h2 (show (0 : ℝ) < 60.0 by norm_num)
  exact ne_of_gt h3

/-- C3 amended: in the comparison method object, a curve number in (0, 100]
is passed unmodified to the SCS Lag formula (even when outside the validated
range [50, 95]) but no warning is recorded, while a curve number that is
nonpositive or above 100 is silently replaced by 75; the DEM mode SCS Lag
calculator records range warnings for curve numbers outside [50, 95] and, for
in range curve numbers, evaluates the lag with the given value (using the ft
per ft slope). -/
theorem C3_amended (L S cn : ℝ) (hL : 0 < L) (hS : 0 < S) :
    (0 < cn → cn ≤ 100 →
      TcTool.SCSLag_calculate L S (some cn) =
        (L ^ (0.8 : ℝ)) * (((1000.0 / cn - 9.0) : ℝ) ^ (0.7 : ℝ)) /
          (1900.0 * (S ^ (0.5 : ℝ))) / 0.6 * 60.0) ∧
    (cn ≤ 0 ∨ 100 < cn →
      TcTool.SCSLag_calculate L S (some cn) = TcTool.SCSLag_calculate L S (some 75)) ∧
    (cn < 50 → Warn.cnBelowMin ∈ (DemX.SCSLag_calculate L S cn false).warnings) ∧
    (95 < cn → Warn.cnAboveMax ∈ (DemX.SCSLag_calculate L S cn false).warnings) ∧
    (50 ≤ cn → cn ≤ 95 →
      (DemX.SCSLag_calculate L S cn false).lag_hr =
        (L ^ (0.8 : ℝ)) * (((1000.0 / cn - 9.0) : ℝ) ^ (0.7 : ℝ)) /
          (1900.0 * ((S / 100.0) ^ (0.5 : ℝ)))) := by
  have hguard : ¬(L ≤ 0 ∨ S ≤ 0) := by push_neg; exact ⟨hL, hS⟩
  refine ⟨?_, ?_, ?_, ?_, ?_⟩
  · intro h0 h100
    have hst : ¬((1000.0 : ℝ) / cn - 9.0 ≤ 0) := by
      push_neg
      have h10 : (10 : ℝ) ≤ 1000.0 / cn := by
        rw [le_div_iff h0]
        linarith
      linarith
    unfold TcTool.SCSLag_calculate
    rw [if_neg hguard]
    dsimp only [Option.getD]
    rw [if_neg (by push_neg; exact ⟨h0, by linarith⟩ : ¬(cn ≤ 0 ∨ cn > 100))]
    rw [if_neg hst]
  · intro h
    unfold TcTool.SCSLag_calculate
    rw [if_neg hguard, if_neg hguard]
    dsimp only [Option.getD]
    rw [if_pos (by rcases h with h | h; exact Or.inl h; exact Or.inr h :
      cn ≤ 0 ∨ cn > 100)]
    rw [if_neg (by norm_num : ¬((75 : ℝ) ≤ 0 ∨ (75 : ℝ) > 100))]
  · intro h
    unfold DemX.SCSLag_calculate
    dsimp only
    rw [if_pos h]
    simp
  · intro h
    unfold DemX.SCSLag_calculate
    dsimp only
    rw [if_neg (by linarith : ¬(cn < 50)), if_pos h]
    simp
  · intro h50 h95
    have h0 : (0 : ℝ) < cn := by linarith
    have hst : ¬((1000.0 : ℝ) / cn - 9.0 ≤ 0) := by
      push_neg
      have h10 : (1000.0 : ℝ) / 95 ≤ 1000.0 / cn :=
        div_le_div_of_nonneg_left (by norm_num) h0 h95
      nlinarith
    unfold DemX.SCSLag_calculate
    dsimp only
    rw [if_neg (by push_neg; intro h; linarith : ¬(cn < 50 ∧ cn ≤ 0))]
    rw [if_neg (by push_neg; intro h1 h2; linarith : ¬(cn ≥ 50 ∧ cn > 95 ∧ cn > 100))]
    rw [if_neg (by simp : ¬((false : Bool) = true ∧
      (DemX.apply_slope_adjustment (S / 100.0)).2.1 = true))]
    rw [if_pos h0, if_neg hst, if_pos (⟨hS, hL⟩ : S > 0 ∧ L > 0)]

/-- Witness for C3 amended at length 1000 ft, slope 4 percent, CN 110. -/
theorem C3_witness :
    TcTool.SCSLag_calculate 1000 4 (some 110) = TcTool.SCSLag_calculate 1000 4 (some 75) ∧
    Warn.cnAboveMax ∈ (DemX.SCSLag_calculate 1000 4 110 false).warnings := by
  have h := C3_amended 1000 4 110 (by norm_num) (by norm_num)
  exact ⟨h.2.1 (by norm_num), h.2.2.2.1 (by norm_num)⟩

/-- C4: at length 1000 ft, slope 4 percent and CN 75, the validation script
scs_lag_tc returns ten times the value of the comparison method object
SCSLagMethod.calculate, and the DEM mode SCS Lag calculator agrees with the
validation script, because both divide the percent slope by 100 before the
0.5 power while the comparison method object uses the percent slope directly;
the three implementations therefore do not return the same value on identical
inputs, although the DEM calculator docstring states Y is the slope in
percent. -/
theorem C4_scs_slope_divergence :
    Validation.scs_lag_tc 1000 4 75 = 10 * TcTool.SCSLag_calculate 1000 4 (some 75) ∧
    (DemX.SCSLag_calculate 1000 4 75 false).tc_min = Validation.scs_lag_tc 1000 4 75 ∧
    TcTool.SCSLag_calculate 1000 4 (some 75) ≠ Validation.scs_lag_tc 1000 4 75 := by
  have hhalf : (0.5 : ℝ) = 1 / 2 := by norm_num
  have h2 : (4 : ℝ) ^ (0.5 : ℝ) = 2 := by
    rw [hhalf, ← Real.sqrt_eq_rpow, show (4 : ℝ) = 2 ^ 2 by norm_num,
      Real.sqrt_sq (by norm_num : (0 : ℝ) ≤ 2)]
  have h02 : ((4 : ℝ) / 100.0) ^ (0.5 : ℝ) = 0.2 := by
    rw [hhalf, ← Real.sqrt_eq_rpow, show (4 : ℝ) / 100.0 = (0.2 : ℝ) ^ 2 by norm_num,
      Real.sqrt_sq (by norm_num : (0 : ℝ) ≤ 0.2)]
  have hstor : ¬((1000.0 : ℝ) / 75 - 9.0 ≤ 0) := by norm_num
  have hNpos : 0 < ((1000 : ℝ) ^ (0.8 : ℝ)) * (((1000.0 / 75 - 9.0) : ℝ) ^ (0.7 : ℝ)) :=
    mul_pos (Real.rpow_pos_of_pos (by norm_num) _)
      (Real.rpow_pos_of_pos (by norm_num) _)
  have hT : TcTool.SCSLag_calculate 1000 4 (some 75) =
      ((1000 : ℝ) ^ (0.8 : ℝ)) * (((1000.0 / 75 - 9.0) : ℝ) ^ (0.7 : ℝ)) /
        (1900.0 * 2) / 0.6 * 60.0 := by
    unfold TcTool.SCSLag_calculate
    rw [if_neg (by norm_num)]
    dsimp only [Option.getD]
    rw [if_neg (by norm_num : ¬((75 : ℝ) ≤ 0 ∨ (75 : ℝ) > 100)), if_neg hstor, h2]
  have hV : Validation.scs_lag_tc 1000 4 75 =
      ((1000 : ℝ) ^ (0.8 : ℝ)) * (((1000.0 / 75 - 9.0) : ℝ) ^ (0.7 : ℝ)) /
        (1900.0 * 0.2) / 0.6 * 60.0 := by
    unfold Validation.scs_lag_tc
    rw [if_neg (by norm_num)]
    dsimp only
    rw [if_neg hstor, h02]
  have hlagpos : (0 : ℝ) <
      ((1000 : ℝ) ^ (0.8 : ℝ)) * (((1000.0 / 75 - 9.0) : ℝ) ^ (0.7 : ℝ)) /
        (1900.0 * 0.2) :=
    div_pos hNpos (by norm_num)
  have hD : (DemX.SCSLag_calculate 1000 4 75 false).tc_min =
      ((1000 : ℝ) ^ (0.8 : ℝ)) * (((1000.0 / 75 - 9.0) : ℝ) ^ (0.7 : ℝ)) /
        (1900.0 * 0.2) / 0.6 * 60.0 := by
    unfold DemX.SCSLag_calculate
    dsimp only
    simp only [Bool.false_eq_true, false_and, if_false]
    rw [if_neg (by norm_num : ¬((75 : ℝ) < 50 ∧ (75 : ℝ) ≤ 0))]
    rw [if_neg (by norm_num : ¬((75 : ℝ) ≥ 50 ∧ (75 : ℝ) > 95 ∧ (75 : ℝ) > 100))]
    rw [if_pos (by norm_num : (75 : ℝ) > 0), if_neg hstor]
    rw [if_pos (by norm_num : (4 : ℝ) > 0 ∧ (1000 : ℝ) > 0)]
    rw [h02]
    rw [if_pos hlagpos]
  refine ⟨?_, ?_, ?_⟩
  · rw [hV, hT]
    ring
  · rw [hD, hV]
  · rw [hV, hT]
    intro heq
    field_simp at heq
    rcases heq with (h | h) | h <;> norm_num at h

/-- Helper: with a sampler that always fails, the lowest point search of
extract_flowpath_simple finds nothing. -/
theorem find_lowest_all_none {P : Type} (sample : P → Option ℝ)
    (h : ∀ p, sample p = none) (pts : List P) :
    DemX.find_lowest sample pts = none := by
  induction pts with
  | nil => rfl
  | cons a l ih =>
    unfold DemX.find_lowest at ih ⊢
    rw [List.foldl_cons, h a]
    exact ih

/-- Helper: with a sampler that always fails, the highest point search of
extract_flowpath_simple finds nothing. -/
theorem find_highest_all_none {P : Type} (sample : P → Option ℝ)
    (h : ∀ p, sample p = none) (pts : List P) :
    DemX.find_highest sample pts = none := by
  induction pts with
  | nil => rfl
  | cons a l ih =>
    unfold DemX.find_highest at ih ⊢
    rw [List.foldl_cons, h a]
    exact ih

/-- Helper: when the raster yields no valid elevation anywhere,
extract_flowpath_simple returns the early result with zero length, zero
slope and the could-not-extract warning, without raising. -/
theorem extract_all_none {P : Type} (sample : P → Option ℝ)
    (boundary grid : List P) (centroid : P) (dist : P → P → ℝ) (is_meters : Bool)
    (h : ∀ p, sample p = none) :
    DemX.extract_flowpath_simple sample boundary grid centroid dist is_meters false =
      { length_ft := 0, slope_ftft := 0, slope_pct := 0, high_elev_ft := none,
        low_elev_ft := none, warnings := [Warn.couldNotExtract], adjusted := false } := by
  unfold DemX.extract_flowpath_simple
  rw [if_neg (by simp)]
  dsimp only
  rw [find_highest_all_none sample h grid]

/-- C2 counterexample: with a raster that yields no valid elevation under the
polygon, the per catchment DEM mode record has slope 0.05 percent (zero slope
pushed up by the low slope adjustment), not the conservative constant 0.2
claimed, and its length is 0, not the bounding box diagonal; the warning list
does contain the extraction failure notice. -/
theorem C2_counterexample :
    (DemX.dem_mode_catchment (fun _ : Unit => (none : Option ℝ)) [()] [()] ()
        (fun _ _ => 0) false false true).avg_slope_pct = 0.05 ∧
    (0.05 : ℝ) ≠ 0.2 ∧
    (DemX.dem_mode_catchment (fun _ : Unit => (none : Option ℝ)) [()] [()] ()
        (fun _ _ => 0) false false true).total_length_ft = 0 ∧
    Warn.couldNotExtract ∈ (DemX.dem_mode_catchment (fun _ : Unit => (none : Option ℝ))
        [()] [()] () (fun _ _ => 0) false false true).warnings := by
  have hrec : DemX.dem_mode_catchment (fun _ : Unit => (none : Option ℝ)) [()] [()] ()
      (fun _ _ => 0) false false true =
      { total_length_ft := 0, avg_slope_pct := (0 / 100.0 + 0.0005) * 100.0,
        warnings := [Warn.couldNotExtract, Warn.lowSlope], adjusted := true } := by
    unfold DemX.dem_mode_catchment DemX.extract_flowpath_simple
      DemX.find_lowest DemX.find_highest DemX.dem_mode_record
      DemX.apply_slope_adjustment DemX.MIN_SLOPE_THRESHOLD
      DemX.LOW_SLOPE_ADJUSTMENT DemX.TRANSITIONAL_SLOPE_UPPER
    norm_num
  rw [hrec]
  norm_num

/-- C2 amended: when the raster yields no valid elevation sample under the
polygon, extract_flowpath_simple does not raise and does not fall back to
the bounding box diagonal; the assembled record has length 0, slope 0.05
percent when the slope adjustment option is on (0 otherwise) and carries the
could-not-extract warning; the bounding box diagonal length with the
conservative 0.2 percent slope is produced only by the exception branch of
calculate_dem_mode, which runs only when extraction raises. -/
theorem C2_amended {P : Type} (sample : P → Option ℝ)
    (boundary grid : List P) (centroid : P) (dist : P → P → ℝ)
    (is_meters adj : Bool) (hs : ∀ p, sample p = none) :
    DemX.dem_mode_catchment sample boundary grid centroid dist is_meters false adj =
      { total_length_ft := 0,
        avg_slope_pct := if adj then 0.05 else 0,
        warnings := if adj then [Warn.couldNotExtract, Warn.lowSlope]
          else [Warn.couldNotExtract],
        adjusted := adj } ∧
    (∀ w hgt : ℝ,
      (DemX.dem_mode_exception_record w hgt false true adj).avg_slope_pct = 0.2 ∧
      (DemX.dem_mode_exception_record w hgt false true adj).total_length_ft =
        Real.sqrt (w ^ 2 + hgt ^ 2) ∧
      Warn.demFailed ∈ (DemX.dem_mode_exception_record w hgt false true adj).warnings) := by
  constructor
  · unfold DemX.dem_mode_catchment
    rw [extract_all_none sample boundary grid centroid dist is_meters hs]
    unfold DemX.dem_mode_record DemX.apply_slope_adjustment
      DemX.MIN_SLOPE_THRESHOLD DemX.LOW_SLOPE_ADJUSTMENT
      DemX.TRANSITIONAL_SLOPE_UPPER
    cases adj <;> norm_num
  · intro w hgt
    unfold DemX.dem_mode_exception_record DemX.dem_mode_record
      DemX.apply_slope_adjustment DemX.MIN_SLOPE_THRESHOLD
      DemX.TRANSITIONAL_SLOPE_UPPER DemX.LOW_SLOPE_ADJUSTMENT
    cases adj <;> norm_num

/-- Witness for C2 amended at a one point geometry with an always failing
sampler and the slope adjustment option enabled. -/
theorem C2_witness :
    DemX.dem_mode_catchment (fun _ : Unit => (none : Option ℝ)) [(), ()]
        [(), ()] () (fun _ _ => 0) true false true =
      { total_length_ft := 0, avg_slope_pct := 0.05,
        warnings := [Warn.couldNotExtract, Warn.lowSlope], adjusted := true } := by
  have h := C2_amended (fun _ : Unit => (none : Option ℝ)) [(), ()]
    [(), ()] () (fun _ _ => 0) true true (fun _ => rfl)
  simpa using h.1
